import Mathlib

/-!
Verification development for the `internal/pkg/podman` package of pack8s:
a shallow embedding, in Lean 4, of the session-handle layer of a podman
varlink client (error rendering, prefix queries, unique lookup, retrying
image pull, handle construction and the interactive attach coordinator),
together with theorems settling the specified properties.

Remote calls and other environment interactions are modelled as oracles
(explicit parameters giving each call's outcome); the control flow of each
function is translated statement by statement from `podman.go`.
-/

namespace Pack8s

/-- The error vocabulary seen by `SprintError` in `podman.go`: one variant per
`case` of its type switch (each carrying the fields the code reads, plus the
string the error's own default rendering `%v` produces), the two `io` sentinel
values checked in the `default` branch, and a catch-all for any other error
value (carrying its dynamic type name and default string form, the two things
the code prints for it). -/
inductive PodmanError where
  | imageNotFound (msg id : String)
  | containerNotFound (msg id : String)
  | noContainerRunning (msg : String)
  | podNotFound (msg name : String)
  | podContainerError (msg podname errs : String)
  | noContainersInPod (msg name : String)
  | errorOccurred (msg reason : String)
  | runtimeError (msg reason : String)
  | invalidParameter (msg param : String)
  | methodNotFound (msg method : String)
  | methodNotImplemented (msg method : String)
  | interfaceNotFound (msg iface : String)
  | varlinkError (msg params : String)
  | eof
  | unexpectedEOF
  | other (typeName msg : String)
  deriving Repr, DecidableEq

/-- The body written to the buffer by the type switch of `SprintError`
(everything after the `"Error calling %s: "` prefix), one branch per case,
with the exact format strings of `podman.go`. -/
def sprintBody : PodmanError → String
  | .imageNotFound msg id => "\x27" ++ msg ++ "\x27 name=\x27" ++ id ++ "\x27\n"
  | .containerNotFound msg id => "\x27" ++ msg ++ "\x27 name=\x27" ++ id ++ "\x27\n"
  | .noContainerRunning msg => "\x27" ++ msg ++ "\x27\n"
  | .podNotFound msg name => "\x27" ++ msg ++ "\x27 name=\x27" ++ name ++ "\x27\n"
  | .podContainerError msg podname errs =>
      "\x27" ++ msg ++ "\x27 podname=\x27" ++ podname ++ "\x27 errors=\x27" ++ errs ++ "\x27\n"
  | .noContainersInPod msg name => "\x27" ++ msg ++ "\x27 name=\x27" ++ name ++ "\x27\n"
  | .errorOccurred msg reason => "\x27" ++ msg ++ "\x27 reason=\x27" ++ reason ++ "\x27\n"
  | .runtimeError msg reason => "\x27" ++ msg ++ "\x27 reason=\x27" ++ reason ++ "\x27\n"
  | .invalidParameter msg param => "\x27" ++ msg ++ "\x27 parameter=\x27" ++ param ++ "\x27\n"
  | .methodNotFound msg method => "\x27" ++ msg ++ "\x27 method=\x27" ++ method ++ "\x27\n"
  | .methodNotImplemented msg method => "\x27" ++ msg ++ "\x27 method=\x27" ++ method ++ "\x27\n"
  | .interfaceNotFound msg iface => "\x27" ++ msg ++ "\x27 interface=\x27" ++ iface ++ "\x27\n"
  | .varlinkError msg params => "\x27" ++ msg ++ "\x27 parameters=\x27" ++ params ++ "\x27\n"
  | .eof => "Connection closed\n"
  | .unexpectedEOF => "Connection aborted\n"
  | .other typeName msg => typeName ++ " - \x27" ++ msg ++ "\x27\n"

/-- `SprintError` of `podman.go`: writes `"Error calling <method>: "` to the
buffer, then the branch of the type switch, and returns the buffer. -/
def SprintError (methodname : String) (err : PodmanError) : String :=
  "Error calling " ++ methodname ++ ": " ++ sprintBody err

/-- `s` contains `sub` as a (contiguous) substring. -/
def containsSub (s sub : String) : Prop :=
  ∃ pre post, s = pre ++ sub ++ post

/-- A container record, with the two fields `podman.go` reads
(`Id`, `Names`). -/
structure Container where
  Id : String
  Names : String
  deriving Repr, DecidableEq

/-- The zero value `iopodman.Container{}` returned by
`FindPrefixedContainer` on its failure paths. -/
def containerZero : Container := ⟨"", ""⟩

/-- A volume record, with the two fields `podman.go` reads
(`Name`, `MountPoint`). -/
structure Volume where
  Name : String
  MountPoint : String
  deriving Repr, DecidableEq

/-- Oracle for the two list RPCs used by the query helpers: the outcome of
`iopodman.ListContainers().Call` and of `iopodman.GetVolumes().Call`. -/
structure ListEngine where
  listContainersResult : Except PodmanError (List Container)
  getVolumesResult : Except PodmanError (List Volume)

/-- `strings.HasPrefix(s, pfx)`: case-sensitive test that `pfx` is a prefix
of `s`, on the characters of the strings. -/
def hasPfx (pfx s : String) : Bool :=
  List.isPrefixOf pfx.data s.data

/-- The accumulation loop shared by `GetPrefixedContainers` and
`GetPrefixedVolumes`: `ret` starts at the given accumulator and each element
satisfying the predicate is appended (`ret = append(ret, x)`). -/
def filterLoop (p : α → Bool) (ret : List α) : List α → List α
  | [] => ret
  | x :: xs => if p x then filterLoop p (ret ++ [x]) xs else filterLoop p ret xs

/-- `Handle.GetPrefixedContainers`: calls the list RPC; on failure returns the
(still empty) accumulator and the error; on success loops over the reported
containers keeping those whose `Names` field has the given prefix
(`strings.HasPrefix(cont.Names, prefix)`), and returns them with a nil
error. -/
def GetPrefixedContainers (eng : ListEngine) (pfx : String) :
    List Container × Option PodmanError :=
  match eng.listContainersResult with
  | .error e => ([], some e)
  | .ok containers =>
      (filterLoop (fun cont => hasPfx pfx cont.Names) [] containers, none)

/-- `Handle.GetPrefixedVolumes`: same shape as `GetPrefixedContainers`, over
the `GetVolumes` RPC and the `Name` field. -/
def GetPrefixedVolumes (eng : ListEngine) (pfx : String) :
    List Volume × Option PodmanError :=
  match eng.getVolumesResult with
  | .error e => ([], some e)
  | .ok volumes =>
      (filterLoop (fun vol => hasPfx pfx vol.Name) [] volumes, none)

/-- The dynamic type name of the error value built by `fmt.Errorf` (with no
`%w` verb), as printed by the `%T` verb. -/
def errorfTypeName : String := "*errors.errorString"

/-- `Handle.FindPrefixedContainer`: calls `GetPrefixedContainers`; on its
error returns the zero container and that error; if the match count differs
from 1 returns the zero container and
`fmt.Errorf("failed to found the container with name %s", prefixedName)`;
otherwise returns the unique match and a nil error. -/
def FindPrefixedContainer (eng : ListEngine) (prefixedName : String) :
    Container × Option PodmanError :=
  match GetPrefixedContainers eng prefixedName with
  | (_, some e) => (containerZero, some e)
  | (containers, none) =>
      match containers with
      | [c] => (c, none)
      | _ => (containerZero,
          some (.other errorfTypeName
            ("failed to found the container with name " ++ prefixedName)))

/-- The fixed backoff schedule `tries := []int{0, 1, 2, 6}` of
`Handle.PullImage`. -/
def tries : List Nat := [0, 1, 2, 6]

/-- The terminal error of `Handle.PullImage`:
`fmt.Errorf("failed to download %s %d times, giving up.", ref, len(tries))`. -/
def pullFailMsg (ref : String) : String :=
  "failed to download " ++ ref ++ " " ++ toString tries.length ++ " times, giving up."

/-- Outcome of a `PullImage` run: the final result (`none` = nil error), the
sleeps performed (in seconds, in order), and the number of RPC attempts
actually made. -/
structure PullOutcome where
  result : Option String
  sleeps : List Nat
  attempts : Nat
  deriving Repr, DecidableEq

/-- The `for idx, i := range tries` loop of `Handle.PullImage`: sleep `i`
seconds, attempt the pull RPC (outcome given by the oracle `engine`, indexed
by attempt number, `none` = success); on error `continue`, on success
`return nil`; after the loop return the terminal error. `sleeps` accumulates
performed sleeps in reverse; `att` counts performed attempts. -/
def pullAux (engine : Nat → Option PodmanError) (ref : String) :
    List Nat → Nat → List Nat → Nat → PullOutcome
  | [], _, sleeps, att => ⟨some (pullFailMsg ref), sleeps.reverse, att⟩
  | d :: rest, idx, sleeps, att =>
      match engine idx with
      | some _ => pullAux engine ref rest (idx + 1) (d :: sleeps) (att + 1)
      | none => ⟨none, (d :: sleeps).reverse, att + 1⟩

/-- `Handle.PullImage`, as a function of the per-attempt outcome oracle. -/
def PullImage (engine : Nat → Option PodmanError) (ref : String) : PullOutcome :=
  pullAux engine ref tries 0 [] 0

/-- Observable actions performed by a handle operation: an RPC call through
the handle's connection, opening/closing the per-call attach I/O socket,
putting the terminal into raw mode, restoring the saved terminal mode, and
closing the handle's underlying connection (an action no operation of
`podman.go` ever performs — it is in the vocabulary so that its absence is a
statement about the code). -/
inductive Event where
  | rpcCall (method : String)
  | openIoSocket (path : String)
  | closeIoSocket (path : String)
  | makeRaw
  | restoreTerm
  | closeConn
  deriving Repr, DecidableEq

/-- A value received from the completion channel `errChan` of
`Handle.Terminal`, tagged by which of the four spawned activities produced
it: the interrupt listener closes the channel (a receive then yields the zero
value, a nil error); each copy goroutine sends the result of its `io.Copy`
(`none` models the nil error `io.Copy` returns on clean end-of-stream); the
exec goroutine sends the result of `iopodman.ExecContainer().Call`. -/
inductive Completion where
  | interrupt
  | remoteToLocal (res : Option PodmanError)
  | localToRemote (res : Option PodmanError)
  | execDone (res : Option PodmanError)
  deriving Repr, DecidableEq

/-- The error value the coordinator receives from the channel for a given
completion: nil for an interrupt (closed channel), and the activity's own
result otherwise. -/
def completionValue : Completion → Option PodmanError
  | .interrupt => none
  | .remoteToLocal res => res
  | .localToRemote res => res
  | .execDone res => res

/-- Oracle for one `Handle.Terminal` invocation: the outcomes of the attach
RPC, the get-attach-sockets RPC (returning the I/O socket path on success),
the `os.OpenFile` of that path, `terminal.MakeRaw`, and the order in which
values arrive on the completion channel once the four activities are spawned
(`[]` models no activity ever completing, so the receive blocks forever). -/
structure TermEnv where
  attachResult : Option PodmanError
  socketsResult : Except PodmanError String
  openResult : Option PodmanError
  makeRawResult : Option PodmanError
  arrivals : List Completion

/-- `Handle.Terminal`, translated statement by statement: each failing
preparatory step returns its error at once; `attached.Close()` and
`terminal.Restore` are deferred (in that declaration order, so they run
restore-first) once acquired; after spawning the four activities the call
returns the first value received from `errChan`. The first component is
`none` when the call never returns (receive on a channel nobody completes);
the second is the list of performed events, in order. -/
def TerminalRun (env : TermEnv) : Option (Option PodmanError) × List Event :=
  match env.attachResult with
  | some e => (some (some e), [Event.rpcCall "Attach"])
  | none =>
    match env.socketsResult with
    | .error e => (some (some e), [Event.rpcCall "Attach", Event.rpcCall "GetAttachSockets"])
    | .ok path =>
      match env.openResult with
      | some e => (some (some e),
          [Event.rpcCall "Attach", Event.rpcCall "GetAttachSockets", Event.openIoSocket path])
      | none =>
        match env.makeRawResult with
        | some e => (some (some e),
            [Event.rpcCall "Attach", Event.rpcCall "GetAttachSockets",
             Event.openIoSocket path, Event.closeIoSocket path])
        | none =>
          match env.arrivals with
          | [] => (none,
              [Event.rpcCall "Attach", Event.rpcCall "GetAttachSockets",
               Event.openIoSocket path, Event.makeRaw, Event.rpcCall "ExecContainer"])
          | c :: _ => (some (completionValue c),
              [Event.rpcCall "Attach", Event.rpcCall "GetAttachSockets",
               Event.openIoSocket path, Event.makeRaw, Event.rpcCall "ExecContainer",
               Event.restoreTerm, Event.closeIoSocket path])

/-- A session handle: a cancellation context (opaque) and the connection
returned by `varlink.NewConnection`, modelled by an identifier. -/
structure Handle where
  conn : Nat

/-- The well-known default socket address of `podman.go`. -/
def DefaultSocket : String := "unix:/run/podman/io.podman"

/-- `NewHandle` of `podman.go`, as a function of a connection oracle mapping
a dialed address to `varlink.NewConnection`'s result (connection value and
error). It takes no socket-address argument: it dials `DefaultSocket`,
returns the handle built from whatever connection value came back together
with the error unmodified, and the list of addresses dialed (exactly one, no
retry). -/
def NewHandle (connect : String → Nat × Option PodmanError) :
    Handle × Option PodmanError × List String :=
  (⟨(connect DefaultSocket).1⟩, (connect DefaultSocket).2, [DefaultSocket])

/-- Oracle for a whole run: the list RPC outcomes, the per-attempt pull
outcomes, and the attach-coordinator environment. -/
structure Oracle where
  lists : ListEngine
  pull : Nat → Option PodmanError
  term : TermEnv

/-- The operations exposed on a `Handle` in `podman.go` (queries, lifecycle
transitions, pull, exec and the attach coordinator), with the arguments that
influence their observable behaviour. -/
inductive Op where
  | terminal
  | exec
  | getPrefixedContainers (pfx : String)
  | getPrefixedVolumes (pfx : String)
  | findPrefixedContainer (pfx : String)
  | removeVolumes
  | removeContainer
  | createNamedVolume
  | createContainer
  | stopContainer
  | startContainer
  | waitContainer
  | pullImage (ref : String)

/-- The events performed by one handle operation: every non-attach operation
is a single RPC call through the connection (`FindPrefixedContainer` reuses
the `ListContainers` call of `GetPrefixedContainers`); `PullImage` performs
one `PullImage` RPC per attempt; `Terminal` performs the events of
`TerminalRun`. -/
def opTrace (o : Oracle) : Op → List Event
  | .terminal => (TerminalRun o.term).2
  | .exec => [Event.rpcCall "ExecContainer"]
  | .getPrefixedContainers _ => [Event.rpcCall "ListContainers"]
  | .getPrefixedVolumes _ => [Event.rpcCall "GetVolumes"]
  | .findPrefixedContainer _ => [Event.rpcCall "ListContainers"]
  | .removeVolumes => [Event.rpcCall "VolumeRemove"]
  | .removeContainer => [Event.rpcCall "RemoveContainer"]
  | .createNamedVolume => [Event.rpcCall "VolumeCreate"]
  | .createContainer => [Event.rpcCall "CreateContainer"]
  | .stopContainer => [Event.rpcCall "StopContainer"]
  | .startContainer => [Event.rpcCall "StartContainer"]
  | .waitContainer => [Event.rpcCall "WaitContainer"]
  | .pullImage ref => List.replicate (PullImage o.pull ref).attempts (Event.rpcCall "PullImage")

/-- Running a sequence of operations on a handle: Go methods take the handle
by value and never reassign its fields, so each step hands the same handle on
and appends its events. -/
def runOps (o : Oracle) (hnd : Handle) : List Op → Handle × List Event
  | [] => (hnd, [])
  | op :: ops =>
      let rest := runOps o hnd ops
      (rest.1, opTrace o op ++ rest.2)

/-- Whether an event closes anything (the connection or a socket). -/
def Event.isClose : Event → Bool
  | .closeIoSocket _ => true
  | .closeConn => true
  | _ => false

/-- Whether an event closes the handle's underlying connection. -/
def isCloseConn : Event → Bool
  | .closeConn => true
  | _ => false

/-- Whether an event is a close of the per-call attach I/O socket. -/
def isCloseIoSocket : Event → Bool
  | .closeIoSocket _ => true
  | _ => false

/-! ### Helper lemmas -/

theorem containsSub_self (s : String) : containsSub s s :=
  ⟨"", "", by rw [String.empty_append, String.append_empty]⟩

theorem containsSub_append_left (a : String) {s sub : String}
    (h : containsSub s sub) : containsSub (a ++ s) sub := by
  obtain ⟨p, q, hpq⟩ := h
  exact ⟨a ++ p, q, by rw [hpq]; simp [String.append_assoc]⟩

theorem containsSub_append_right (b : String) {s sub : String}
    (h : containsSub s sub) : containsSub (s ++ b) sub := by
  obtain ⟨p, q, hpq⟩ := h
  exact ⟨p, q ++ b, by rw [hpq]; simp [String.append_assoc]⟩

theorem sprint_length_pos (m : String) (err : PodmanError) :
    0 < (SprintError m err).length := by
  have h : ("Error calling " : String).length = 14 := by decide
  simp [SprintError, String.length_append, h]

theorem sprint_contains_method (m : String) (err : PodmanError) :
    containsSub (SprintError m err) m := by
  simp only [SprintError]
  exact containsSub_append_right _
    (containsSub_append_right _
      (containsSub_append_left _ (containsSub_self m)))

theorem filterLoop_eq_filter (p : α → Bool) (ret : List α) (l : List α) :
    filterLoop p ret l = ret ++ l.filter p := by
  induction l generalizing ret with
  | nil => simp [filterLoop]
  | cons x xs ih =>
      by_cases hx : p x
      · simp [filterLoop, hx, ih, List.filter_cons]
      · simp [filterLoop, hx, ih, List.filter_cons]

/-! ### Claim theorems -/

/-- Claim C6: for every method name and every error value, `SprintError`
returns a non-empty string containing the originating method name; and for
each recognized structured error kind (missing-resource errors with a name
field, the multi-container error list, reason-only errors, RPC-protocol
errors with parameter/method/interface fields), the returned string contains
every documented field's value verbatim. -/
theorem C6_sprint_error_fields :
    (∀ m err, 0 < (SprintError m err).length ∧ containsSub (SprintError m err) m) ∧
    (∀ m msg id, containsSub (SprintError m (.imageNotFound msg id)) id) ∧
    (∀ m msg id, containsSub (SprintError m (.containerNotFound msg id)) id) ∧
    (∀ m msg name, containsSub (SprintError m (.podNotFound msg name)) name) ∧
    (∀ m msg podname errs,
        containsSub (SprintError m (.podContainerError msg podname errs)) podname ∧
        containsSub (SprintError m (.podContainerError msg podname errs)) errs) ∧
    (∀ m msg name, containsSub (SprintError m (.noContainersInPod msg name)) name) ∧
    (∀ m msg reason, containsSub (SprintError m (.errorOccurred msg reason)) reason) ∧
    (∀ m msg reason, containsSub (SprintError m (.runtimeError msg reason)) reason) ∧
    (∀ m msg param, containsSub (SprintError m (.invalidParameter msg param)) param) ∧
    (∀ m msg method, containsSub (SprintError m (.methodNotFound msg method)) method) ∧
    (∀ m msg method, containsSub (SprintError m (.methodNotImplemented msg method)) method) ∧
    (∀ m msg iface, containsSub (SprintError m (.interfaceNotFound msg iface)) iface) ∧
    (∀ m msg params, containsSub (SprintError m (.varlinkError msg params)) params) := by
  refine ⟨fun m err => ⟨sprint_length_pos m err, sprint_contains_method m err⟩,
    ?_, ?_, ?_, ?_, ?_, ?_, ?_, ?_, ?_, ?_, ?_, ?_⟩
  · intro m msg id
    simp only [SprintError, sprintBody]
    exact containsSub_append_left _ (containsSub_append_right _
      (containsSub_append_left _ (containsSub_self id)))
  · intro m msg id
    simp only [SprintError, sprintBody]
    exact containsSub_append_left _ (containsSub_append_right _
      (containsSub_append_left _ (containsSub_self id)))
  · intro m msg name
    simp only [SprintError, sprintBody]
    exact containsSub_append_left _ (containsSub_append_right _
      (containsSub_append_left _ (containsSub_self name)))
  · intro m msg podname errs
    constructor
    · simp only [SprintError, sprintBody]
      exact containsSub_append_left _ (containsSub_append_right _
        (containsSub_append_right _ (containsSub_append_right _
          (containsSub_append_left _ (containsSub_self podname)))))
    · simp only [SprintError, sprintBody]
      exact containsSub_append_left _ (containsSub_append_right _
        (containsSub_append_left _ (containsSub_self errs)))
  · intro m msg name
    simp only [SprintError, sprintBody]
    exact containsSub_append_left _ (containsSub_append_right _
      (containsSub_append_left _ (containsSub_self name)))
  · intro m msg reason
    simp only [SprintError, sprintBody]
    exact containsSub_append_left _ (containsSub_append_right _
      (containsSub_append_left _ (containsSub_self reason)))
  · intro m msg reason
    simp only [SprintError, sprintBody]
    exact containsSub_append_left _ (containsSub_append_right _
      (containsSub_append_left _ (containsSub_self reason)))
  · intro m msg param
    simp only [SprintError, sprintBody]
    exact containsSub_append_left _ (containsSub_append_right _
      (containsSub_append_left _ (containsSub_self param)))
  · intro m msg method
    simp only [SprintError, sprintBody]
    exact containsSub_append_left _ (containsSub_append_right _
      (containsSub_append_left _ (containsSub_self method)))
  · intro m msg method
    simp only [SprintError, sprintBody]
    exact containsSub_append_left _ (containsSub_append_right _
      (containsSub_append_left _ (containsSub_self method)))
  · intro m msg iface
    simp only [SprintError, sprintBody]
    exact containsSub_append_left _ (containsSub_append_right _
      (containsSub_append_left _ (containsSub_self iface)))
  · intro m msg params
    simp only [SprintError, sprintBody]
    exact containsSub_append_left _ (containsSub_append_right _
      (containsSub_append_left _ (containsSub_self params)))

/-- Claim C7: `SprintError` renders the clean end-of-stream sentinel as a
message containing "Connection closed" and the unexpected end-of-stream
sentinel as a distinct message containing "Connection aborted"; every other
unrecognized error value is rendered via its dynamic type name together with
its default string form. -/
theorem C7_sprint_error_sentinels :
    (∀ m, containsSub (SprintError m .eof) "Connection closed") ∧
    (∀ m, containsSub (SprintError m .unexpectedEOF) "Connection aborted") ∧
    (∀ m, (SprintError m .eof == SprintError m .unexpectedEOF) = false) ∧
    (∀ m ty msg, containsSub (SprintError m (.other ty msg)) ty ∧
        containsSub (SprintError m (.other ty msg)) msg) := by
  refine ⟨?_, ?_, ?_, ?_⟩
  · intro m
    simp only [SprintError, sprintBody]
    exact containsSub_append_left _ ⟨"", "\n", by decide⟩
  · intro m
    simp only [SprintError, sprintBody]
    exact containsSub_append_left _ ⟨"", "\n", by decide⟩
  · intro m
    apply beq_eq_false_iff_ne.mpr
    intro h
    simp only [SprintError, sprintBody] at h
    have hd := congrArg String.data h
    simp only [String.data_append, List.append_assoc] at hd
    have h1 := List.append_cancel_left hd
    have h2 := List.append_cancel_left h1
    have h3 := List.append_cancel_left h2
    exact (by decide :
      ("Connection closed\n" : String).data ≠ ("Connection aborted\n" : String).data) h3
  · intro m ty msg
    constructor
    · simp only [SprintError, sprintBody]
      exact containsSub_append_left _ (containsSub_append_right _
        (containsSub_append_right _ (containsSub_append_right _ (containsSub_self ty))))
    · simp only [SprintError, sprintBody]
      exact containsSub_append_left _ (containsSub_append_right _
        (containsSub_append_left _ (containsSub_self msg)))

/-- Claim C5: for every prefix and engine-reported list, the successful
result of `GetPrefixedContainers` (resp. `GetPrefixedVolumes`) is exactly the
filter of the reported list by a case-sensitive prefix match on the name
field, a sublist of the reported list (so in the engine's order, with no
re-sorting), with a nil error. -/
theorem C5_prefixed_query_filter (eng : ListEngine) (pfx : String) :
    (∀ l, eng.listContainersResult = .ok l →
        (GetPrefixedContainers eng pfx).1 =
          l.filter (fun cont => hasPfx pfx cont.Names) ∧
        ((GetPrefixedContainers eng pfx).1).Sublist l ∧
        (GetPrefixedContainers eng pfx).2 = none) ∧
    (∀ l, eng.getVolumesResult = .ok l →
        (GetPrefixedVolumes eng pfx).1 =
          l.filter (fun vol => hasPfx pfx vol.Name) ∧
        ((GetPrefixedVolumes eng pfx).1).Sublist l ∧
        (GetPrefixedVolumes eng pfx).2 = none) := by
  constructor
  · intro l h
    have hG : (GetPrefixedContainers eng pfx).1 =
        l.filter (fun cont => hasPfx pfx cont.Names) := by
      simp [GetPrefixedContainers, h, filterLoop_eq_filter]
    refine ⟨hG, ?_, ?_⟩
    · rw [hG]; exact List.filter_sublist l
    · simp [GetPrefixedContainers, h]
  · intro l h
    have hG : (GetPrefixedVolumes eng pfx).1 =
        l.filter (fun vol => hasPfx pfx vol.Name) := by
      simp [GetPrefixedVolumes, h, filterLoop_eq_filter]
    refine ⟨hG, ?_, ?_⟩
    · rw [hG]; exact List.filter_sublist l
    · simp [GetPrefixedVolumes, h]

theorem C5_prefixed_query_filter_witness :
    (GetPrefixedContainers
        (⟨.ok [⟨"c1", "ab"⟩, ⟨"c2", "xy"⟩], .ok [⟨"v1", "m"⟩]⟩ : ListEngine) "a").1 =
      List.filter (fun cont => hasPfx "a" cont.Names)
        [⟨"c1", "ab"⟩, ⟨"c2", "xy"⟩] ∧
    ((GetPrefixedVolumes
        (⟨.ok [⟨"c1", "ab"⟩, ⟨"c2", "xy"⟩], .ok [⟨"v1", "m"⟩]⟩ : ListEngine) "v").1).Sublist
      [⟨"v1", "m"⟩] :=
  ⟨((C5_prefixed_query_filter
      (⟨.ok [⟨"c1", "ab"⟩, ⟨"c2", "xy"⟩], .ok [⟨"v1", "m"⟩]⟩ : ListEngine) "a").1
      [⟨"c1", "ab"⟩, ⟨"c2", "xy"⟩] rfl).1,
   ((C5_prefixed_query_filter
      (⟨.ok [⟨"c1", "ab"⟩, ⟨"c2", "xy"⟩], .ok [⟨"v1", "m"⟩]⟩ : ListEngine) "v").2
      [⟨"v1", "m"⟩] rfl).2.1⟩

/-- Claim C4: `FindPrefixedContainer` succeeds exactly when
`GetPrefixedContainers` yields exactly one match, returning that record; on
zero or two-plus matches it fails with an error whose message names the
requested prefix. -/
theorem C4_find_prefixed_unique (eng : ListEngine) (pfxName : String) :
    ((FindPrefixedContainer eng pfxName).2 = none ↔
        ∃ c, GetPrefixedContainers eng pfxName = ([c], none)) ∧
    (∀ c, GetPrefixedContainers eng pfxName = ([c], none) →
        FindPrefixedContainer eng pfxName = (c, none)) ∧
    (∀ l, GetPrefixedContainers eng pfxName = (l, none) → l.length ≠ 1 →
        FindPrefixedContainer eng pfxName = (containerZero,
          some (.other errorfTypeName
            ("failed to found the container with name " ++ pfxName))) ∧
        containsSub ("failed to found the container with name " ++ pfxName) pfxName) := by
  have hContains :
      containsSub ("failed to found the container with name " ++ pfxName) pfxName :=
    ⟨"failed to found the container with name ", "", by rw [String.append_empty]⟩
  cases hE : eng.listContainersResult with
  | error e =>
      have hG : GetPrefixedContainers eng pfxName = ([], some e) := by
        simp [GetPrefixedContainers, hE]
      have hF : FindPrefixedContainer eng pfxName = (containerZero, some e) := by
        simp [FindPrefixedContainer, hG]
      refine ⟨?_, ?_, ?_⟩
      · simp [hF, hG]
      · intro c hc
        rw [hG] at hc
        simp at hc
      · intro l hl
        rw [hG] at hl
        simp at hl
  | ok l =>
      have hG : GetPrefixedContainers eng pfxName =
          (filterLoop (fun cont => hasPfx pfxName cont.Names) [] l, none) := by
        simp [GetPrefixedContainers, hE]
      rcases hL : filterLoop (fun cont => hasPfx pfxName cont.Names) [] l with
        _ | ⟨c, _ | ⟨c2, rest⟩⟩
      · have hF : FindPrefixedContainer eng pfxName = (containerZero,
            some (.other errorfTypeName
              ("failed to found the container with name " ++ pfxName))) := by
          simp [FindPrefixedContainer, hG, hL]
        rw [hL] at hG
        refine ⟨?_, ?_, ?_⟩
        · simp [hF, hG]
        · intro c hc
          rw [hG] at hc
          simp at hc
        · intro l' hl' hlen
          exact ⟨hF, hContains⟩
      · have hF : FindPrefixedContainer eng pfxName = (c, none) := by
          simp [FindPrefixedContainer, hG, hL]
        rw [hL] at hG
        refine ⟨?_, ?_, ?_⟩
        · simp [hF, hG]
        · intro c' hc
          rw [hG] at hc
          simp at hc
          simp [hF, hc]
        · intro l' hl' hlen
          rw [hG] at hl'
          have h1 : [c] = l' := by simpa using hl'
          subst h1
          exact absurd rfl hlen
      · have hF : FindPrefixedContainer eng pfxName = (containerZero,
            some (.other errorfTypeName
              ("failed to found the container with name " ++ pfxName))) := by
          simp [FindPrefixedContainer, hG, hL]
        rw [hL] at hG
        refine ⟨?_, ?_, ?_⟩
        · simp [hF, hG]
        · intro c' hc
          rw [hG] at hc
          simp at hc
        · intro l' hl' hlen
          exact ⟨hF, hContains⟩

theorem C4_find_prefixed_unique_witness :
    (FindPrefixedContainer
        (⟨.ok [⟨"c1", "ab"⟩, ⟨"c2", "xy"⟩], .ok []⟩ : ListEngine) "a" =
      (⟨"c1", "ab"⟩, none)) ∧
    (FindPrefixedContainer
        (⟨.ok [⟨"c1", "ab"⟩, ⟨"c2", "xy"⟩], .ok []⟩ : ListEngine) "z" =
      (containerZero, some (.other errorfTypeName
        ("failed to found the container with name " ++ "z")))) :=
  ⟨(C4_find_prefixed_unique
      (⟨.ok [⟨"c1", "ab"⟩, ⟨"c2", "xy"⟩], .ok []⟩ : ListEngine) "a").2.1
      ⟨"c1", "ab"⟩ (by decide),
   ((C4_find_prefixed_unique
      (⟨.ok [⟨"c1", "ab"⟩, ⟨"c2", "xy"⟩], .ok []⟩ : ListEngine) "z").2.2
      [] (by decide) (by decide)).1⟩

/-- Claim C10: whenever `GetPrefixedContainers` or `GetPrefixedVolumes`
returns a non-nil error, the accompanying slice is empty; whenever
`FindPrefixedContainer` returns a non-nil error, the accompanying record is
the zero value. -/
theorem C10_zero_results_with_error (eng : ListEngine) (pfx : String) :
    (∀ e, (GetPrefixedContainers eng pfx).2 = some e →
        (GetPrefixedContainers eng pfx).1 = []) ∧
    (∀ e, (GetPrefixedVolumes eng pfx).2 = some e →
        (GetPrefixedVolumes eng pfx).1 = []) ∧
    (∀ e, (FindPrefixedContainer eng pfx).2 = some e →
        (FindPrefixedContainer eng pfx).1 = containerZero) := by
  refine ⟨?_, ?_, ?_⟩
  · intro e he
    cases hE : eng.listContainersResult with
    | error e0 => simp [GetPrefixedContainers, hE]
    | ok l => rw [GetPrefixedContainers] at he; simp [hE] at he
  · intro e he
    cases hE : eng.getVolumesResult with
    | error e0 => simp [GetPrefixedVolumes, hE]
    | ok l => rw [GetPrefixedVolumes] at he; simp [hE] at he
  · intro e he
    cases hE : eng.listContainersResult with
    | error e0 =>
        have hG : GetPrefixedContainers eng pfx = ([], some e0) := by
          simp [GetPrefixedContainers, hE]
        simp [FindPrefixedContainer, hG]
    | ok l =>
        have hG : GetPrefixedContainers eng pfx =
            (filterLoop (fun cont => hasPfx pfx cont.Names) [] l, none) := by
          simp [GetPrefixedContainers, hE]
        rcases hL : filterLoop (fun cont => hasPfx pfx cont.Names) [] l with
          _ | ⟨c, _ | ⟨c2, rest⟩⟩
        · simp [FindPrefixedContainer, hG, hL]
        · rw [FindPrefixedContainer, hG, hL] at he
          simp at he
        · simp [FindPrefixedContainer, hG, hL]

theorem C10_zero_results_with_error_witness :
    (GetPrefixedContainers (⟨.error .eof, .error .unexpectedEOF⟩ : ListEngine) "p").1 = [] ∧
    (GetPrefixedVolumes (⟨.error .eof, .error .unexpectedEOF⟩ : ListEngine) "p").1 = [] ∧
    (FindPrefixedContainer (⟨.error .eof, .error .unexpectedEOF⟩ : ListEngine) "p").1 =
      containerZero :=
  ⟨(C10_zero_results_with_error (⟨.error .eof, .error .unexpectedEOF⟩ : ListEngine) "p").1
      .eof (by decide),
   (C10_zero_results_with_error (⟨.error .eof, .error .unexpectedEOF⟩ : ListEngine) "p").2.1
      .unexpectedEOF (by decide),
   (C10_zero_results_with_error (⟨.error .eof, .error .unexpectedEOF⟩ : ListEngine) "p").2.2
      .eof (by decide)⟩

/-- Claim C3: `PullImage` performs at most 4 RPC attempts, sleeping 0, 1, 2
and 6 seconds before attempts 1 through 4 respectively (the performed sleeps
are always the schedule truncated to the performed attempts); if the k-th
attempt succeeds it returns nil immediately with k attempts made and no
further ones; if all 4 fail it returns the single terminal error naming the
reference and the attempt count 4 (the per-attempt errors do not appear in
it: the message is independent of the `engine` oracle's errors). -/
theorem C3_pull_retry_schedule (engine : Nat → Option PodmanError) (ref : String) :
    (PullImage engine ref).attempts ≤ 4 ∧
    (PullImage engine ref).sleeps = tries.take (PullImage engine ref).attempts ∧
    (engine 0 = none →
        (PullImage engine ref).result = none ∧ (PullImage engine ref).attempts = 1) ∧
    (engine 0 ≠ none → engine 1 = none →
        (PullImage engine ref).result = none ∧ (PullImage engine ref).attempts = 2) ∧
    (engine 0 ≠ none → engine 1 ≠ none → engine 2 = none →
        (PullImage engine ref).result = none ∧ (PullImage engine ref).attempts = 3) ∧
    (engine 0 ≠ none → engine 1 ≠ none → engine 2 ≠ none → engine 3 = none →
        (PullImage engine ref).result = none ∧ (PullImage engine ref).attempts = 4) ∧
    (engine 0 ≠ none → engine 1 ≠ none → engine 2 ≠ none → engine 3 ≠ none →
        PullImage engine ref = ⟨some (pullFailMsg ref), [0, 1, 2, 6], 4⟩) ∧
    containsSub (pullFailMsg ref) ref ∧
    containsSub (pullFailMsg ref) "4 times" := by
  have h4 : toString tries.length = "4" := rfl
  have hmsg : pullFailMsg ref =
      (("failed to download " ++ ref) ++ " ") ++ "4 times" ++ ", giving up." := by
    show "failed to download " ++ ref ++ " " ++ toString tries.length ++ " times, giving up." = _
    rw [h4]
    simp only [String.append_assoc]
    congr 2
  have hc1 : containsSub (pullFailMsg ref) ref := by
    rw [hmsg]
    exact containsSub_append_right _ (containsSub_append_right _
      (containsSub_append_right _ (containsSub_append_left _ (containsSub_self ref))))
  have hc2 : containsSub (pullFailMsg ref) "4 times" := by
    rw [hmsg]
    exact containsSub_append_right _
      (containsSub_append_left _ (containsSub_self "4 times"))
  rcases h0 : engine 0 with _ | e0
  · have hP : PullImage engine ref = ⟨none, [0], 1⟩ := by
      simp [PullImage, pullAux, tries, h0]
    simp [hP, h0, tries, hc1, hc2]
  · rcases h1 : engine 1 with _ | e1
    · have hP : PullImage engine ref = ⟨none, [0, 1], 2⟩ := by
        simp [PullImage, pullAux, tries, h0, h1]
      simp [hP, h0, h1, tries, hc1, hc2]
    · rcases h2 : engine 2 with _ | e2
      · have hP : PullImage engine ref = ⟨none, [0, 1, 2], 3⟩ := by
          simp [PullImage, pullAux, tries, h0, h1, h2]
        simp [hP, h0, h1, h2, tries, hc1, hc2]
      · rcases h3 : engine 3 with _ | e3
        · have hP : PullImage engine ref = ⟨none, [0, 1, 2, 6], 4⟩ := by
            simp [PullImage, pullAux, tries, h0, h1, h2, h3]
          simp [hP, h0, h1, h2, h3, tries, hc1, hc2]
        · have hP : PullImage engine ref = ⟨some (pullFailMsg ref), [0, 1, 2, 6], 4⟩ := by
            simp [PullImage, pullAux, tries, h0, h1, h2, h3]
          simp [hP, h0, h1, h2, h3, tries, hc1, hc2]

theorem C3_pull_retry_schedule_witness :
    PullImage (fun _ => some PodmanError.eof) "reg:2" =
      ⟨some (pullFailMsg "reg:2"), [0, 1, 2, 6], 4⟩ ∧
    (PullImage (fun k => if k < 3 then some PodmanError.eof else none) "reg:2").result =
      none ∧
    (PullImage (fun k => if k < 3 then some PodmanError.eof else none) "reg:2").attempts =
      4 :=
  ⟨(C3_pull_retry_schedule (fun _ => some PodmanError.eof) "reg:2").2.2.2.2.2.2.1
      (by decide) (by decide) (by decide) (by decide),
   ((C3_pull_retry_schedule (fun k => if k < 3 then some PodmanError.eof else none)
      "reg:2").2.2.2.2.2.1 (by decide) (by decide) (by decide) (by decide)).1,
   ((C3_pull_retry_schedule (fun k => if k < 3 then some PodmanError.eof else none)
      "reg:2").2.2.2.2.2.1 (by decide) (by decide) (by decide) (by decide)).2⟩

/-- Claim C1: whenever `Terminal` reaches the streaming phase (attach RPC,
get-attach-sockets RPC, socket open and raw-mode switch all succeeded, and
some activity completes), its result is exactly the value of the first
arrival on the completion channel; the result does not depend on the later
arrivals (no waiting for the other three activities); in particular an
interrupt first gives a nil result, a clean end-of-stream of the
remote-to-local copy first gives a nil result, and an exec failure first
gives that exec error. -/
theorem C1_terminal_first_completion (env : TermEnv) (path : String)
    (c : Completion) (rest : List Completion)
    (hA : env.attachResult = none) (hS : env.socketsResult = .ok path)
    (hO : env.openResult = none) (hM : env.makeRawResult = none)
    (hArr : env.arrivals = c :: rest) :
    (TerminalRun env).1 = some (completionValue c) ∧
    (∀ (env2 : TermEnv) (path2 : String) (rest2 : List Completion),
        env2.attachResult = none → env2.socketsResult = .ok path2 →
        env2.openResult = none → env2.makeRawResult = none →
        env2.arrivals = c :: rest2 →
        (TerminalRun env2).1 = (TerminalRun env).1) ∧
    (c = .interrupt → (TerminalRun env).1 = some none) ∧
    (∀ res, c = .remoteToLocal res → (TerminalRun env).1 = some res) ∧
    (∀ res, c = .localToRemote res → (TerminalRun env).1 = some res) ∧
    (∀ res, c = .execDone res → (TerminalRun env).1 = some res) := by
  have hT : (TerminalRun env).1 = some (completionValue c) := by
    simp [TerminalRun, hA, hS, hO, hM, hArr]
  refine ⟨hT, ?_, ?_, ?_, ?_, ?_⟩
  · intro env2 path2 rest2 hA2 hS2 hO2 hM2 hArr2
    rw [hT]
    simp [TerminalRun, hA2, hS2, hO2, hM2, hArr2]
  · intro hc
    subst hc
    rw [hT]
    rfl
  · intro res hc
    subst hc
    rw [hT]
    rfl
  · intro res hc
    subst hc
    rw [hT]
    rfl
  · intro res hc
    subst hc
    rw [hT]
    rfl

theorem C1_terminal_first_completion_witness :
    (TerminalRun
      (⟨none, Except.ok "/tmp/io.sock", none, none,
        [Completion.execDone (some PodmanError.eof), Completion.interrupt]⟩ : TermEnv)).1 =
      some (some PodmanError.eof) :=
  (C1_terminal_first_completion
      (⟨none, Except.ok "/tmp/io.sock", none, none,
        [Completion.execDone (some PodmanError.eof), Completion.interrupt]⟩ : TermEnv)
      "/tmp/io.sock" (Completion.execDone (some PodmanError.eof)) [Completion.interrupt]
      rfl rfl rfl rfl rfl).2.2.2.2.2 (some PodmanError.eof) rfl

/-- Claim C2: each preparatory failure of `Terminal` (attach RPC,
get-attach-sockets RPC, socket open) returns that error immediately, with a
trace containing no raw-mode event (the terminal mode is never modified:
the returned traces hold only the calls made up to the failure); once raw
mode is established and a completion arrives, the trace ends with the
terminal-mode restoration and the I/O socket close, so both happen before
`Terminal` returns, whichever activity completed first. -/
theorem C2_terminal_cleanup (env : TermEnv) :
    (∀ e, env.attachResult = some e →
        TerminalRun env = (some (some e), [Event.rpcCall "Attach"])) ∧
    (∀ e, env.attachResult = none → env.socketsResult = .error e →
        TerminalRun env = (some (some e),
          [Event.rpcCall "Attach", Event.rpcCall "GetAttachSockets"])) ∧
    (∀ e path, env.attachResult = none → env.socketsResult = .ok path →
        env.openResult = some e →
        TerminalRun env = (some (some e),
          [Event.rpcCall "Attach", Event.rpcCall "GetAttachSockets",
           Event.openIoSocket path])) ∧
    (∀ path c rest, env.attachResult = none → env.socketsResult = .ok path →
        env.openResult = none → env.makeRawResult = none →
        env.arrivals = c :: rest →
        TerminalRun env = (some (completionValue c),
          [Event.rpcCall "Attach", Event.rpcCall "GetAttachSockets",
           Event.openIoSocket path, Event.makeRaw, Event.rpcCall "ExecContainer",
           Event.restoreTerm, Event.closeIoSocket path]) ∧
        Event.restoreTerm ∈ (TerminalRun env).2 ∧
        Event.closeIoSocket path ∈ (TerminalRun env).2) := by
  refine ⟨?_, ?_, ?_, ?_⟩
  · intro e hA
    simp [TerminalRun, hA]
  · intro e hA hS
    simp [TerminalRun, hA, hS]
  · intro e path hA hS hO
    simp [TerminalRun, hA, hS, hO]
  · intro path c rest hA hS hO hM hArr
    have hT : TerminalRun env = (some (completionValue c),
        [Event.rpcCall "Attach", Event.rpcCall "GetAttachSockets",
         Event.openIoSocket path, Event.makeRaw, Event.rpcCall "ExecContainer",
         Event.restoreTerm, Event.closeIoSocket path]) := by
      simp [TerminalRun, hA, hS, hO, hM, hArr]
    refine ⟨hT, ?_, ?_⟩
    · rw [hT]
      simp
    · rw [hT]
      simp

theorem C2_terminal_cleanup_witness :
    (TerminalRun (⟨some PodmanError.eof, Except.error PodmanError.eof, none, none,
        []⟩ : TermEnv) =
      (some (some PodmanError.eof), [Event.rpcCall "Attach"])) ∧
    (TerminalRun (⟨none, Except.error PodmanError.unexpectedEOF, none, none,
        []⟩ : TermEnv) =
      (some (some PodmanError.unexpectedEOF),
        [Event.rpcCall "Attach", Event.rpcCall "GetAttachSockets"])) ∧
    (TerminalRun (⟨none, Except.ok "/tmp/io.sock", some PodmanError.eof, none,
        []⟩ : TermEnv) =
      (some (some PodmanError.eof),
        [Event.rpcCall "Attach", Event.rpcCall "GetAttachSockets",
         Event.openIoSocket "/tmp/io.sock"])) ∧
    Event.restoreTerm ∈
      (TerminalRun (⟨none, Except.ok "/tmp/io.sock", none, none,
        [Completion.interrupt]⟩ : TermEnv)).2 :=
  ⟨(C2_terminal_cleanup
      (⟨some PodmanError.eof, Except.error PodmanError.eof, none, none, []⟩ : TermEnv)).1
      PodmanError.eof rfl,
   (C2_terminal_cleanup
      (⟨none, Except.error PodmanError.unexpectedEOF, none, none, []⟩ : TermEnv)).2.1
      PodmanError.unexpectedEOF rfl rfl,
   (C2_terminal_cleanup
      (⟨none, Except.ok "/tmp/io.sock", some PodmanError.eof, none, []⟩ : TermEnv)).2.2.1
      PodmanError.eof "/tmp/io.sock" rfl rfl rfl,
   ((C2_terminal_cleanup
      (⟨none, Except.ok "/tmp/io.sock", none, none,
        [Completion.interrupt]⟩ : TermEnv)).2.2.2
      "/tmp/io.sock" Completion.interrupt [] rfl rfl rfl rfl rfl).2.1⟩

theorem terminal_trace_closes (env : TermEnv) :
    ((TerminalRun env).2.any isCloseConn) = false ∧
    (((TerminalRun env).2.filter Event.isClose).all isCloseIoSocket) = true := by
  rcases hA : env.attachResult with _ | eA
  · rcases hS : env.socketsResult with eS | path
    · simp [TerminalRun, hA, hS, isCloseConn, isCloseIoSocket, Event.isClose]
    · rcases hO : env.openResult with _ | eO
      · rcases hM : env.makeRawResult with _ | eM
        · rcases hArr : env.arrivals with _ | ⟨c, rest⟩
          · simp [TerminalRun, hA, hS, hO, hM, hArr, isCloseConn, isCloseIoSocket,
              Event.isClose]
          · simp [TerminalRun, hA, hS, hO, hM, hArr, isCloseConn, isCloseIoSocket,
              Event.isClose]
        · simp [TerminalRun, hA, hS, hO, hM, isCloseConn, isCloseIoSocket, Event.isClose]
      · simp [TerminalRun, hA, hS, hO, isCloseConn, isCloseIoSocket, Event.isClose]
  · simp [TerminalRun, hA, isCloseConn, isCloseIoSocket, Event.isClose]

theorem replicate_rpc_closes (n : Nat) (m : String) :
    ((List.replicate n (Event.rpcCall m)).any isCloseConn) = false ∧
    (((List.replicate n (Event.rpcCall m)).filter Event.isClose).all isCloseIoSocket)
      = true := by
  induction n with
  | zero => exact ⟨rfl, rfl⟩
  | succ k ih =>
      refine ⟨?_, ?_⟩
      · simp [List.replicate_succ, isCloseConn, ih.1]
      · simp [List.replicate_succ, Event.isClose, ih.2]

/-- Claim C8: `NewHandle` (evaluated on the connection oracle) dials exactly
one address, the well-known default `"unix:/run/podman/io.podman"`, with no
retry, and returns the connection value and the connection-establishment
error unmodified. (It exposes no way to supply a socket address: its only
parameters are the context and, in this embedding, the connection oracle.) -/
theorem C8_newhandle_default_socket (connect : String → Nat × Option PodmanError) :
    (NewHandle connect).1.conn = (connect DefaultSocket).1 ∧
    (NewHandle connect).2.1 = (connect DefaultSocket).2 ∧
    (NewHandle connect).2.2 = [DefaultSocket] ∧
    DefaultSocket = "unix:/run/podman/io.podman" :=
  ⟨rfl, rfl, rfl, rfl⟩

/-- Claim C9: no operation on a session handle ever closes the handle's
underlying connection: the event trace of every single operation, and of
every sequence of operations, holds no connection-close event; every close
event any operation performs is a close of the per-call attach I/O socket
(inside `Terminal`); and running any sequence of operations hands the handle
through unchanged. -/
theorem C9_conn_never_closed :
    (∀ (o : Oracle) (op : Op), ((opTrace o op).any isCloseConn) = false) ∧
    (∀ (o : Oracle) (op : Op),
        (((opTrace o op).filter Event.isClose).all isCloseIoSocket) = true) ∧
    (∀ (o : Oracle) (hnd : Handle) (ops : List Op),
        (((runOps o hnd ops).2).any isCloseConn) = false ∧
        (runOps o hnd ops).1 = hnd) := by
  have hsingle : ∀ (o : Oracle) (op : Op),
      ((opTrace o op).any isCloseConn) = false ∧
      (((opTrace o op).filter Event.isClose).all isCloseIoSocket) = true := by
    intro o op
    cases op with
    | terminal => exact terminal_trace_closes o.term
    | pullImage ref => exact replicate_rpc_closes (PullImage o.pull ref).attempts "PullImage"
    | exec => exact ⟨rfl, rfl⟩
    | getPrefixedContainers pfx => exact ⟨rfl, rfl⟩
    | getPrefixedVolumes pfx => exact ⟨rfl, rfl⟩
    | findPrefixedContainer pfx => exact ⟨rfl, rfl⟩
    | removeVolumes => exact ⟨rfl, rfl⟩
    | removeContainer => exact ⟨rfl, rfl⟩
    | createNamedVolume => exact ⟨rfl, rfl⟩
    | createContainer => exact ⟨rfl, rfl⟩
    | stopContainer => exact ⟨rfl, rfl⟩
    | startContainer => exact ⟨rfl, rfl⟩
    | waitContainer => exact ⟨rfl, rfl⟩
  refine ⟨fun o op => (hsingle o op).1, fun o op => (hsingle o op).2, ?_⟩
  intro o hnd ops
  induction ops with
  | nil => exact ⟨rfl, rfl⟩
  | cons op ops ih =>
      refine ⟨?_, ih.2⟩
      simp [runOps, List.any_append, (hsingle o op).1, ih.1]

end Pack8s
